import Mathlib

/-!
Verification development for the Asterisk eSpeak dialplan application
(app_espeak.c and its variants).  The definitions below are a shallow
embedding of the C source: external collaborators (the eSpeak engine,
libsamplerate, the Asterisk channel and file APIs) are modelled as
oracle inputs in a `World` structure, the filesystem as a map from
Asterisk base names to file records, and each observable action of
`espeak_exec` as an event in a trace.
-/

set_option maxRecDepth 8000

namespace EspeakApp

/-! Part 1: byte-level helpers and a model of the Asterisk utility
`ast_md5_hash`, which renders the MD5 digest of a C string as 32
lowercase hexadecimal characters. -/

/-- Truncate a natural number to 32 bits (unsigned C arithmetic). -/
def w32 (n : Nat) : Nat := n % 4294967296

/-- 32-bit left rotation. -/
def rotl32 (x s : Nat) : Nat := w32 ((x <<< s) ||| (x >>> (32 - s)))

/-- The `k` least significant bytes of `n`, little endian. -/
def leBytes (k n : Nat) : List Nat := (List.range k).map fun i => (n >>> (8 * i)) % 256

/-- MD5 round function (RFC 1321): F, G, H, I selected by the step index. -/
def md5F (i b c d : Nat) : Nat :=
  if i < 16 then (b &&& c) ||| ((4294967295 ^^^ b) &&& d)
  else if i < 32 then (d &&& b) ||| ((4294967295 ^^^ d) &&& c)
  else if i < 48 then b ^^^ c ^^^ d
  else c ^^^ (b ||| (4294967295 ^^^ d))

/-- MD5 message word index for step `i`. -/
def md5G (i : Nat) : Nat :=
  if i < 16 then i
  else if i < 32 then (5 * i + 1) % 16
  else if i < 48 then (3 * i + 5) % 16
  else (7 * i) % 16

/-- MD5 per-step additive constants (RFC 1321). -/
def md5K : List Nat :=
  [0xd76aa478, 0xe8c7b756, 0x242070db, 0xc1bdceee,
   0xf57c0faf, 0x4787c62a, 0xa8304613, 0xfd469501,
   0x698098d8, 0x8b44f7af, 0xffff5bb1, 0x895cd7be,
   0x6b901122, 0xfd987193, 0xa679438e, 0x49b40821,
   0xf61e2562, 0xc040b340, 0x265e5a51, 0xe9b6c7aa,
   0xd62f105d, 0x02441453, 0xd8a1e681, 0xe7d3fbc8,
   0x21e1cde6, 0xc33707d6, 0xf4d50d87, 0x455a14ed,
   0xa9e3e905, 0xfcefa3f8, 0x676f02d9, 0x8d2a4c8a,
   0xfffa3942, 0x8771f681, 0x6d9d6122, 0xfde5380c,
   0xa4beea44, 0x4bdecfa9, 0xf6bb4b60, 0xbebfbc70,
   0x289b7ec6, 0xeaa127fa, 0xd4ef3085, 0x04881d05,
   0xd9d4d039, 0xe6db99e5, 0x1fa27cf8, 0xc4ac5665,
   0xf4292244, 0x432aff97, 0xab9423a7, 0xfc93a039,
   0x655b59c3, 0x8f0ccc92, 0xffeff47d, 0x85845dd1,
   0x6fa87e4f, 0xfe2ce6e0, 0xa3014314, 0x4e0811a1,
   0xf7537e82, 0xbd3af235, 0x2ad7d2bb, 0xeb86d391]

/-- MD5 per-step rotation amounts (RFC 1321). -/
def md5S : List Nat :=
  [7, 12, 17, 22, 7, 12, 17, 22, 7, 12, 17, 22, 7, 12, 17, 22,
   5, 9, 14, 20, 5, 9, 14, 20, 5, 9, 14, 20, 5, 9, 14, 20,
   4, 11, 16, 23, 4, 11, 16, 23, 4, 11, 16, 23, 4, 11, 16, 23,
   6, 10, 15, 21, 6, 10, 15, 21, 6, 10, 15, 21, 6, 10, 15, 21]

/-- One MD5 step on the running state `(a, b, c, d)`. -/
def md5Step (M : Nat → Nat) (st : Nat × Nat × Nat × Nat) (i : Nat) :
    Nat × Nat × Nat × Nat :=
  let a := st.1
  let b := st.2.1
  let c := st.2.2.1
  let d := st.2.2.2
  let f := w32 (md5F i b c d + a + md5K.getD i 0 + M (md5G i))
  (d, w32 (b + rotl32 f (md5S.getD i 0)), b, c)

/-- Process one 64-byte block whose 16 little-endian words are given by `M`. -/
def md5Chunk (M : Nat → Nat) (st : Nat × Nat × Nat × Nat) : Nat × Nat × Nat × Nat :=
  let r := (List.range 64).foldl (md5Step M) st
  (w32 (st.1 + r.1), w32 (st.2.1 + r.2.1), w32 (st.2.2.1 + r.2.2.1),
   w32 (st.2.2.2 + r.2.2.2))

/-- MD5 padding: a `0x80` byte, zeros to 56 mod 64, then the bit length
as 8 little-endian bytes. -/
def padMsg (m : List Nat) : List Nat :=
  m ++ [128] ++ List.replicate ((119 - m.length % 64) % 64) 0 ++ leBytes 8 (8 * m.length)

/-- Little-endian 32-bit word `j` of block `c` of the padded message `p`. -/
def chunkWord (p : List Nat) (c j : Nat) : Nat :=
  p.getD (64 * c + 4 * j) 0 + 256 * p.getD (64 * c + 4 * j + 1) 0 +
  65536 * p.getD (64 * c + 4 * j + 2) 0 + 16777216 * p.getD (64 * c + 4 * j + 3) 0

/-- The 16-byte MD5 digest of a byte sequence. -/
def md5Digest (m : List Nat) : List Nat :=
  let p := padMsg m
  let st := (List.range (p.length / 64)).foldl
    (fun st c => md5Chunk (chunkWord p c) st)
    (1732584193, 4023233417, 2562383102, 271733878)
  leBytes 4 st.1 ++ leBytes 4 st.2.1 ++ leBytes 4 st.2.2.1 ++ leBytes 4 st.2.2.2

/-- UTF-8 encoding of one character, as the C string bytes would hold it. -/
def utf8Bytes (c : Char) : List Nat :=
  let n := c.toNat
  if n < 128 then [n]
  else if n < 2048 then [192 ||| (n >>> 6), 128 ||| (n &&& 63)]
  else if n < 65536 then
    [224 ||| (n >>> 12), 128 ||| ((n >>> 6) &&& 63), 128 ||| (n &&& 63)]
  else
    [240 ||| (n >>> 18), 128 ||| ((n >>> 12) &&& 63),
     128 ||| ((n >>> 6) &&& 63), 128 ||| (n &&& 63)]

/-- The bytes of a Lean string, as the corresponding C string holds them. -/
def strBytes (s : String) : List Nat := s.data.flatMap utf8Bytes

/-- Lowercase hexadecimal digit for a value below 16. -/
def hexDigitChar (n : Nat) : Char :=
  if n < 10 then Char.ofNat (48 + n) else Char.ofNat (87 + n)

/-- Two lowercase hexadecimal characters for one byte. -/
def byteHexChars (b : Nat) : List Char := [hexDigitChar (b / 16), hexDigitChar (b % 16)]

/-- Model of `ast_md5_hash` from the Asterisk utility API: the MD5 digest
of the text, rendered as 32 lowercase hexadecimal characters.  This is
the cache fingerprint used by `espeak_exec` (src/app_espeak.c line 228). -/
def md5Hex (s : String) : String := String.mk ((md5Digest (strBytes s)).flatMap byteHexChars)

/-! Part 2: Asterisk string helpers.  `ast_skip_blanks` and
`ast_trim_blanks` treat every character below codepoint 33 as blank;
`ast_strip_quoted(s, q, q)` first strips blanks and then removes one
matching pair of surrounding quote characters, if present. -/

/-- A character the Asterisk strip helpers treat as blank (codepoint below 33). -/
def astBlank (c : Char) : Bool := c.toNat < 33

/-- Drop leading blanks, as `ast_skip_blanks` does. -/
def dropBlanks : List Char → List Char
  | [] => []
  | c :: cs => if astBlank c then dropBlanks cs else c :: cs

/-- Model of `ast_strip`: remove leading and trailing blanks. -/
def astStripL (l : List Char) : List Char :=
  dropBlanks ((dropBlanks l.reverse).reverse)

/-- Model of `ast_strip_quoted(s, DQUOTE, DQUOTE)`: strip blanks, then remove a
leading double quote together with the final double quote when both are present
(for the one-character string consisting of a double quote the result is empty,
matching the C pointer arithmetic). -/
def astStripQuotedL (l : List Char) : List Char :=
  let t := astStripL l
  match t with
  | [] => []
  | c :: _ => if c = '"' ∧ t.getLast? = some '"' then (t.drop 1).dropLast else t

/-- String version of `astStripQuotedL`. -/
def astStripQuoted (s : String) : String := String.mk (astStripQuotedL s.data)

/-- Split a character list at every comma, as `ast_app_separate_args` does
with the standard delimiter. -/
def splitCommas : List Char → List (List Char)
  | [] => [[]]
  | c :: cs =>
    if c = ',' then [] :: splitCommas cs
    else
      match splitCommas cs with
      | f :: rest => (c :: f) :: rest
      | [] => [[c]]

/-- `AST_STANDARD_APP_ARGS` separates the application argument on commas. -/
def argFields (data : String) : List String := (splitCommas data.data).map String.mk

/-- The first application argument (the text), before quote stripping. -/
def argTextRaw (data : String) : String := (argFields data).headD ""

/-- The third application argument (the language); with three declared argument
slots the final slot receives the remainder, commas included. -/
def argLanguage (data : String) : String :=
  let l := argFields data
  if 3 ≤ l.length then String.intercalate "," (l.drop 2) else ""

/-! Part 3: the data model of `espeak_exec` (src/app_espeak.c lines 174-360).
Files live in the Asterisk file namespace: one base name carries the PCM data
and the format tag given by its extension (`.sln` for signed linear at 8000 Hz,
`.sln16` for 16000 Hz, no tag for the raw temp file). -/

/-- Asterisk file format tag: raw temp file, `.sln`, `.sln16`, or the
uninitialized name buffer the C code would use for an unsupported rate. -/
inductive Fmt where
  | rawf
  | sln
  | sln16
  | undef
  deriving DecidableEq, Repr

/-- One file: its 16-bit PCM samples (one `Int` per frame, mono) and format tag. -/
structure FileRec where
  data : List Int
  fmt : Fmt
  deriving DecidableEq, Repr

/-- The filesystem, from Asterisk base names to files. -/
def Fs : Type := String → Option FileRec

/-- Point update of the filesystem. -/
def Fs.set (fs : Fs) (n : String) (v : Option FileRec) : Fs :=
  fun m => if m = n then v else fs m

/-- Frame count `sf_open` reports for the headerless 16-bit raw file. -/
def fileFrames (fs : Fs) (n : String) : Nat :=
  match fs n with
  | some r => r.data.length
  | none => 0

/-- Observable actions of one `espeak_exec` request, in program order. -/
inductive Ev where
  | answer
  | play (f : String) (rec : Option FileRec)
  | waitstream (f : String)
  | stopstream
  | setVoice (v : String)
  | synth (text : String)
  | resample (inF outF : Nat)
  | filecopy (src dst : String)
  | renameFile (src dst : String)
  | filedelete (f : String)
  | warn
  | err
  deriving DecidableEq, Repr

/-- Whether an event is a playback attempt (`ast_streamfile`). -/
def isPlay : Ev → Bool
  | Ev.play _ _ => true
  | _ => false

/-- Whether an event is a playback attempt of the named file. -/
def isPlayOf (f : String) : Ev → Bool
  | Ev.play g _ => g == f
  | _ => false

/-- Whether an event is an invocation of the TTS engine (`espeak_Synth`). -/
def isSynth : Ev → Bool
  | Ev.synth _ => true
  | _ => false

/-- Whether an event is a cache write (`ast_filecopy` into the cache). -/
def isCopy : Ev → Bool
  | Ev.filecopy _ _ => true
  | _ => false

/-- Whether an event is an invocation of the interpolation step (`src_simple`). -/
def isResample : Ev → Bool
  | Ev.resample _ _ => true
  | _ => false

/-- The configuration snapshot the module globals hold after `read_config`. -/
structure Config where
  usecache : Bool
  cachedir : String
  target_sample_rate : Nat
  speed : Int
  volume : Int
  wordgap : Int
  pitch : Int
  capind : Int
  def_voice : String
  deriving DecidableEq, Repr

/-- Oracle inputs for the external collaborators of one request: the channel
state, the temp name `mkstemp` produces, the stream and wait results of the
playback API, the engine (init failure, native rate, synthesis outcome and PCM
output), and the resampling library (open and allocation outcomes, the
`src_simple` return code, and the interpolated sample values). -/
structure World where
  chanUp : Bool
  tempName : String
  streamRes : String → Int
  waitRes : String → Int
  initFail : Bool
  nativeRate : Nat
  mkstempOk : Bool
  fdopenOk : Bool
  synthOk : Bool
  synthData : List Int
  sfOpenOk : Bool
  mallocSrcOk : Bool
  mallocDstOk : Bool
  srcSimpleRes : Int
  interp : Nat → Int

/-- `MAXLEN` from src/app_espeak.c line 50. -/
def MAXLEN : Nat := 2048

/-- The cache entry path composed at src/app_espeak.c line 231:
`snprintf(cachefile, sizeof(cachefile), "%s/%s", cachedir, MD5_name)`. -/
def cacheName (cfg : Config) (text : String) : String :=
  cfg.cachedir ++ "/" ++ md5Hex text

/-- Outcome of the cache block: an early return from `espeak_exec`, or a
continuation carrying the pending cache-write target (`writecache` together
with the `cachefile` buffer), the events so far and the channel state. -/
inductive CacheOut where
  | ret (r : Int) (tr : List Ev) (up : Bool)
  | cont (ct : Option String) (tr : List Ev) (up : Bool)
  deriving DecidableEq, Repr

/-- The cache mechanism block, src/app_espeak.c lines 226-250: when `usecache`
is set and the composed path fits `MAXLEN`, an existing entry is answered and
streamed (returning on success, falling through on stream failure), while a
missing entry arms `writecache`. -/
def cachePhase (cfg : Config) (w : World) (fs : Fs) (text : String) (up : Bool) :
    CacheOut :=
  if cfg.usecache then
    if cfg.cachedir.length + (md5Hex text).length + 6 ≤ MAXLEN then
      let cachefile := cacheName cfg text
      if (fs cachefile).isSome then
        let ansTr := if up then [] else [Ev.answer]
        if w.streamRes cachefile ≠ 0 then
          CacheOut.cont none (ansTr ++ [Ev.play cachefile (fs cachefile), Ev.err]) true
        else
          CacheOut.ret (w.waitRes cachefile)
            (ansTr ++ [Ev.play cachefile (fs cachefile), Ev.waitstream cachefile,
              Ev.stopstream]) true
      else CacheOut.cont (some cachefile) [] up
    else CacheOut.cont none [] up
  else CacheOut.cont none [] up

/-- Outcome of the synthesis block: early return or continuation with the
native sample rate `espeak_Initialize` reported. -/
inductive SynthOut where
  | ret (r : Int) (tr : List Ev)
  | cont (tr : List Ev) (native : Nat)
  deriving DecidableEq, Repr

/-- The engine invocation block, src/app_espeak.c lines 252-283: initialize the
engine, set the voice and parameters, create the temp file, synthesize into it;
on a non-OK synthesis result the temp file is deleted and -1 returned. -/
def synthPhase (w : World) (fs : Fs) (text voice : String) : SynthOut × Fs :=
  if w.initFail then (SynthOut.ret (-1) [Ev.err], fs)
  else if ¬ w.mkstempOk then (SynthOut.ret (-1) [Ev.setVoice voice, Ev.err], fs)
  else
    let fs1 := Fs.set fs w.tempName (some ⟨[], Fmt.rawf⟩)
    if ¬ w.fdopenOk then (SynthOut.ret (-1) [Ev.setVoice voice, Ev.err], fs1)
    else if ¬ w.synthOk then
      (SynthOut.ret (-1)
        [Ev.setVoice voice, Ev.synth text, Ev.err, Ev.filedelete w.tempName],
       Fs.set fs1 w.tempName none)
    else
      (SynthOut.cont [Ev.setVoice voice, Ev.synth text] w.nativeRate,
       Fs.set fs1 w.tempName (some ⟨w.synthData, Fmt.rawf⟩))

/-- Outcome of the resample block. -/
inductive ResampleOut where
  | ret (r : Int) (tr : List Ev)
  | cont (tr : List Ev)
  deriving DecidableEq, Repr

/-- The resample block, src/app_espeak.c lines 285-333: entered only when the
native rate differs from the target rate; computes
`dst_frames = frames * target_sample_rate / sample_rate` in integer arithmetic,
invokes `src_simple`, and on its failure deletes the temp file and returns -1;
on success the temp file is truncated and rewritten with `dst_frames` frames. -/
def resamplePhase (cfg : Config) (w : World) (fs : Fs) (native : Nat) :
    ResampleOut × Fs :=
  if native ≠ cfg.target_sample_rate then
    if ¬ w.sfOpenOk then
      (ResampleOut.ret (-1) [Ev.err, Ev.filedelete w.tempName], Fs.set fs w.tempName none)
    else
      let frames := fileFrames fs w.tempName
      if ¬ w.mallocSrcOk then (ResampleOut.ret (-1) [Ev.err], fs)
      else
        let dstFrames := frames * cfg.target_sample_rate / native
        if ¬ w.mallocDstOk then (ResampleOut.ret (-1) [Ev.err], fs)
        else if w.srcSimpleRes ≠ 0 then
          (ResampleOut.ret (-1)
            [Ev.resample frames dstFrames, Ev.err, Ev.filedelete w.tempName],
           Fs.set fs w.tempName none)
        else
          (ResampleOut.cont [Ev.resample frames dstFrames],
           Fs.set fs w.tempName (some ⟨(List.range dstFrames).map w.interp, Fmt.rawf⟩))
  else (ResampleOut.cont [], fs)

/-- The format tag chosen at src/app_espeak.c lines 336-339: two separate `if`
statements on the target rate; any other rate would leave the name buffer
uninitialized. -/
def fmtOfRate (r : Nat) : Fmt :=
  if r = 8000 then Fmt.sln else if r = 16000 then Fmt.sln16 else Fmt.undef

/-- The filename extension of a format tag. -/
def extOfFmt : Fmt → String
  | Fmt.sln => ".sln"
  | Fmt.sln16 => ".sln16"
  | _ => ""

/-- The tail of `espeak_exec`, src/app_espeak.c lines 335-359: rename the raw
file to its format name, copy it into the cache when `writecache` is armed,
answer the channel if needed, stream the file, and delete it before returning
the stream or wait result. -/
def finishPhase (cfg : Config) (w : World) (fs : Fs) (ct : Option String) (up : Bool) :
    Int × List Ev × Fs :=
  let fmt := fmtOfRate cfg.target_sample_rate
  let fs1 : Fs := match fs w.tempName with
    | some r => Fs.set fs w.tempName (some ⟨r.data, fmt⟩)
    | none => fs
  let trRen := [Ev.renameFile w.tempName (w.tempName ++ extOfFmt fmt)]
  let cacheStep : List Ev × Fs := match ct with
    | some cf => ([Ev.filecopy w.tempName cf], Fs.set fs1 cf (fs1 w.tempName))
    | none => ([], fs1)
  let fs2 := cacheStep.2
  let ansTr := if up then [] else [Ev.answer]
  if w.streamRes w.tempName ≠ 0 then
    (w.streamRes w.tempName,
     trRen ++ cacheStep.1 ++ ansTr ++
       [Ev.play w.tempName (fs2 w.tempName), Ev.err, Ev.filedelete w.tempName],
     Fs.set fs2 w.tempName none)
  else
    (w.waitRes w.tempName,
     trRen ++ cacheStep.1 ++ ansTr ++
       [Ev.play w.tempName (fs2 w.tempName), Ev.waitstream w.tempName, Ev.stopstream,
        Ev.filedelete w.tempName],
     Fs.set fs2 w.tempName none)

/-- The text argument after comma separation and quote stripping
(src/app_espeak.c lines 204 and 215). -/
def execText (data : String) : String := astStripQuoted (argTextRaw data)

/-- The voice used: the language argument when present, the configured
default voice otherwise (src/app_espeak.c lines 209-213). -/
def execVoice (cfg : Config) (data : String) : String :=
  if ¬ (argLanguage data).isEmpty then argLanguage data else cfg.def_voice

/-- Shallow embedding of `espeak_exec` (src/app_espeak.c lines 174-360):
returns the dialplan result, the trace of observable actions, and the final
filesystem. -/
def espeak_exec (cfg : Config) (w : World) (fs : Fs) (data : String) :
    Int × List Ev × Fs :=
  if data.isEmpty then (-1, [Ev.err], fs)
  else
    let voice := execVoice cfg data
    let text := execText data
    if text.isEmpty then (0, [Ev.warn], fs)
    else
      match cachePhase cfg w fs text w.chanUp with
      | CacheOut.ret r tr _ => (r, tr, fs)
      | CacheOut.cont ct tr0 up1 =>
        let s := synthPhase w fs text voice
        match s.1 with
        | SynthOut.ret r tr => (r, tr0 ++ tr, s.2)
        | SynthOut.cont tr1 native =>
          let rsp := resamplePhase cfg w s.2 native
          match rsp.1 with
          | ResampleOut.ret r tr => (r, tr0 ++ tr1 ++ tr, rsp.2)
          | ResampleOut.cont tr2 =>
            let fin := finishPhase cfg w rsp.2 ct up1
            (fin.1, tr0 ++ tr1 ++ tr2 ++ fin.2.1, fin.2.2)

/-- The dialplan result of a request. -/
def execRes (cfg : Config) (w : World) (fs : Fs) (data : String) : Int :=
  (espeak_exec cfg w fs data).1

/-- The event trace of a request. -/
def execTr (cfg : Config) (w : World) (fs : Fs) (data : String) : List Ev :=
  (espeak_exec cfg w fs data).2.1

/-- The filesystem after a request. -/
def execFs (cfg : Config) (w : World) (fs : Fs) (data : String) : Fs :=
  (espeak_exec cfg w fs data).2.2

/-! Part 4: the configuration loader `read_config`
(src/app_espeak.c lines 85-162). -/

/-- `LONG_MAX` on the 64-bit targets Asterisk modules build for. -/
def LONG_MAX : Int := 9223372036854775807

/-- `LONG_MIN` on the 64-bit targets Asterisk modules build for. -/
def LONG_MIN : Int := -9223372036854775808

/-- Whitespace in the C locale, as `strtol` skips it. -/
def isCSpace (c : Char) : Bool :=
  c = ' ' || c = '\t' || c = '\n' || c.toNat = 11 || c.toNat = 12 || c = '\r'

/-- Value of the maximal leading decimal-digit run, given an accumulator. -/
def digitsVal : List Char → Nat → Nat
  | [], acc => acc
  | c :: cs, acc => if c.isDigit then digitsVal cs (10 * acc + (c.toNat - 48)) else acc

/-- Model of `strtol(s, NULL, 10)`: skip C whitespace, read an optional sign and
a maximal run of decimal digits (an empty run gives 0), and saturate to the
long range, reporting ERANGE on saturation. -/
def strtol10 (s : String) : Int × Bool :=
  let l := s.data.dropWhile isCSpace
  let sr : Int × List Char :=
    match l with
    | '-' :: rest => (-1, rest)
    | '+' :: rest => (1, rest)
    | _ => (1, l)
  let v : Int := sr.1 * (digitsVal sr.2 0 : Int)
  if LONG_MAX < v then (LONG_MAX, true)
  else if v < LONG_MIN then (LONG_MIN, true)
  else (v, false)

/-- The C cast `(int)` on a long value: wrap to 32-bit twos complement. -/
def toInt32 (v : Int) : Int :=
  let m := v % 4294967296
  if m < 2147483648 then m else m - 4294967296

/-- Model of `ast_true`: the affirmative configuration strings. -/
def ast_true (s : String) : Bool :=
  let t := s.toLower
  t == "yes" || t == "true" || t == "y" || t == "t" || t == "1" || t == "on"

/-- A loaded configuration file: section and key to the retrieved value. -/
def CfgFile : Type := String → String → Option String

/-- One integer option read with `strtol` and the ERANGE fallback pattern of
src/app_espeak.c lines 109-150: returns the value and whether the ERANGE
warning fired. -/
def readIntParam (f : CfgFile) (sec key : String) (dflt : Int) : Int × Bool :=
  match f sec key with
  | none => (dflt, false)
  | some t =>
    let p := strtol10 t
    if p.2 then (dflt, true) else (toInt32 p.1, false)

/-- The built-in defaults set at src/app_espeak.c lines 88-97. -/
def defaultConfig : Config :=
  ⟨false, "/tmp", 8000, 150, 100, 1, 50, 0, "default"⟩

/-- Result of `read_config`: the configuration snapshot, whether a samplerate
warning was logged (from ERANGE or from the unsupported-rate fallback), and
the return value. -/
structure ReadConfigOut where
  cfg : Config
  rateWarned : Bool
  ret : Int
  deriving DecidableEq, Repr

/-- Model of `read_config` (src/app_espeak.c lines 85-162).  `none` models a
missing or invalid configuration file, in which case the defaults stand.  After
every option is read, lines 155-160 force the target sample rate into
{8000, 16000}, warning and falling back to 8000 on any other value; the
function always returns 0. -/
def read_config (file : Option CfgFile) : ReadConfigOut :=
  match file with
  | none => ⟨defaultConfig, false, 0⟩
  | some f =>
    let usecache := match f "general" "usecache" with
      | none => false
      | some t => ast_true t
    let cachedir := (f "general" "cachedir").getD "/tmp"
    let rate := readIntParam f "general" "samplerate" 8000
    let speed := readIntParam f "voice" "speed" 150
    let wordgap := readIntParam f "voice" "wordgap" 1
    let volume := readIntParam f "voice" "volume" 100
    let pitch := readIntParam f "voice" "pitch" 50
    let capind := readIntParam f "voice" "capind" 0
    let def_voice := (f "voice" "voice").getD "default"
    let rateFinal : Int × Bool :=
      if rate.1 ≠ 8000 ∧ rate.1 ≠ 16000 then (8000, true) else (rate.1, false)
    ⟨⟨usecache, cachedir, rateFinal.1.toNat, speed.1, volume.1, wordgap.1, pitch.1,
      capind.1, def_voice⟩, rate.2 || rateFinal.2, 0⟩

/-! Part 5: the frame-count computation of `raw_resample` from the eSpeak-ng
variant (src/unnamed/part_002 lines 175-255). -/

/-- Output frame count computed by `raw_resample` (src/unnamed/part_002 lines
207-214): `in_frames = size / 2` frames of 16-bit PCM and
`out_frames = (long)((double)in_frames * r)` with `r = target / native`.
The double-precision product is modelled exactly in rational arithmetic; the
C truncation of the nonnegative product is `Nat.floor`. -/
def raw_resample_outFrames (inFrames rt rs : Nat) : Nat :=
  Nat.floor ((inFrames : ℚ) * ((rt : ℚ) / (rs : ℚ)))

/-! Part 6: derived observables and concrete fixtures used by the theorems. -/

/-- The trace carried by a cache-block outcome. -/
def CacheOut.trOf : CacheOut → List Ev
  | CacheOut.ret _ tr _ => tr
  | CacheOut.cont _ tr _ => tr

/-- The trace carried by a synthesis-block outcome. -/
def SynthOut.trOf : SynthOut → List Ev
  | SynthOut.ret _ tr => tr
  | SynthOut.cont tr _ => tr

/-- The trace carried by a resample-block outcome. -/
def ResampleOut.trOf : ResampleOut → List Ev
  | ResampleOut.ret _ tr => tr
  | ResampleOut.cont tr => tr

/-- Whether the cache lookup hits: `usecache` set, the composed path within
the length bound, and a file present at the composed path
(src/app_espeak.c lines 226-232). -/
def cacheHit (cfg : Config) (fs : Fs) (text : String) : Bool :=
  cfg.usecache &&
    decide (cfg.cachedir.length + (md5Hex text).length + 6 ≤ MAXLEN) &&
    (fs (cacheName cfg text)).isSome

/-- The playback rate implied by an Asterisk format tag. -/
def rateOfFmt : Fmt → Nat
  | Fmt.sln => 8000
  | Fmt.sln16 => 16000
  | _ => 0

/-- A lowercase hexadecimal character. -/
def isHexChar (c : Char) : Bool :=
  decide ((48 ≤ c.toNat ∧ c.toNat ≤ 57) ∨ (97 ≤ c.toNat ∧ c.toNat ≤ 102))

/-- Frame count the resample block computes on the success path:
`dst_frames = frames * target_sample_rate / sample_rate` with the synthesized
frame count as input (src/app_espeak.c line 302). -/
def outFramesOf (w : World) (cfg : Config) : Nat :=
  w.synthData.length * cfg.target_sample_rate / w.nativeRate

/-- PCM data of the output file on the success path: the synthesized buffer
when the native rate already equals the target, the interpolated buffer of
`outFramesOf` frames otherwise. -/
def outDataOf (w : World) (cfg : Config) : List Int :=
  if w.nativeRate = cfg.target_sample_rate then w.synthData
  else (List.range (outFramesOf w cfg)).map w.interp

/-- Trace contribution of the resample block on the success path. -/
def rsTrOf (w : World) (cfg : Config) : List Ev :=
  if w.nativeRate = cfg.target_sample_rate then []
  else [Ev.resample w.synthData.length (outFramesOf w cfg)]

/-- Fixture: a configuration with the cache enabled. -/
def cfgC : Config := ⟨true, "/c", 8000, 150, 100, 1, 50, 0, "default"⟩

/-- Fixture: a configuration with the cache disabled. -/
def cfgN : Config := ⟨false, "/tmp", 8000, 150, 100, 1, 50, 0, "default"⟩

/-- Fixture: a cache-enabled configuration whose cache directory is so long
that the composed cache path exceeds `MAXLEN`. -/
def cfgLong : Config :=
  ⟨true, String.mk (List.replicate 2050 'a'), 8000, 150, 100, 1, 50, 0, "default"⟩

/-- Fixture: a world in which every collaborator succeeds; the engine runs at
22050 Hz and produces three frames. -/
def wOK : World :=
  ⟨true, "/tmp/espk_T", fun _ => 0, fun _ => 0, false, 22050, true, true, true,
   [1, 2, 3], true, true, true, 0, fun _ => 7⟩

/-- Fixture: the empty filesystem. -/
def fsEmpty : Fs := fun _ => none

/-- Fixture: a filesystem holding one cache entry for the text `x` under the
cache directory of `cfgC`. -/
def fsHitX : Fs :=
  fun n => if n = cacheName cfgC "x" then some ⟨[0], Fmt.sln⟩ else none

/-- Fixture: like `wOK` but every stream attempt fails and the engine reports
a synthesis error. -/
def wSynthFail : World :=
  ⟨true, "/tmp/espk_T", fun _ => 1, fun _ => 0, false, 22050, true, true, false,
   [1, 2, 3], true, true, true, 0, fun _ => 7⟩

/-- Fixture: like `wOK` but the engine already runs at the 8000 Hz target. -/
def wEq : World :=
  ⟨true, "/tmp/espk_T", fun _ => 0, fun _ => 0, false, 8000, true, true, true,
   [1, 2, 3], true, true, true, 0, fun _ => 7⟩

/-- Fixture: like `wOK` but `src_simple` reports error code 1. -/
def wSrcFail : World :=
  ⟨true, "/tmp/espk_T", fun _ => 0, fun _ => 0, false, 22050, true, true, true,
   [1, 2, 3], true, true, true, 1, fun _ => 7⟩

/-- Fixture: a configuration file whose only option sets samplerate=11025. -/
def cfgFile11025 : CfgFile :=
  fun sec key =>
    if sec = "general" ∧ key = "samplerate" then some "11025" else none

/-! Part 7: supporting lemmas about the filesystem model and the fingerprint. -/

lemma Fs.set_same (fs : Fs) (n : String) (v : Option FileRec) : Fs.set fs n v n = v := by
  simp [Fs.set]

lemma Fs.set_other (fs : Fs) (n : String) (v : Option FileRec) (m : String)
    (h : m ≠ n) : Fs.set fs n v m = fs m := by
  simp [Fs.set, h]

lemma Fs.set_set (fs : Fs) (n : String) (a b : Option FileRec) :
    Fs.set (Fs.set fs n a) n b = Fs.set fs n b := by
  funext m
  by_cases h : m = n <;> simp [Fs.set, h]

lemma fileFrames_set (fs : Fs) (n : String) (d : List Int) (fm : Fmt) :
    fileFrames (Fs.set fs n (some ⟨d, fm⟩)) n = d.length := by
  simp [fileFrames, Fs.set_same]

lemma leBytes_length (k n : Nat) : (leBytes k n).length = k := by
  simp [leBytes]

lemma leBytes_lt (k n : Nat) : ∀ b ∈ leBytes k n, b < 256 := by
  intro b hb
  simp only [leBytes, List.mem_map, List.mem_range] at hb
  obtain ⟨i, _, rfl⟩ := hb
  exact Nat.mod_lt _ (by norm_num)

lemma md5Digest_length (m : List Nat) : (md5Digest m).length = 16 := by
  unfold md5Digest
  simp [leBytes_length]

lemma md5Digest_lt (m : List Nat) : ∀ b ∈ md5Digest m, b < 256 := by
  unfold md5Digest
  intro b hb
  simp only [List.mem_append] at hb
  rcases hb with ((h | h) | h) | h <;> exact leBytes_lt _ _ _ h

lemma flatMap_byteHex_length (l : List Nat) :
    (l.flatMap byteHexChars).length = 2 * l.length := by
  induction l with
  | nil => simp
  | cons a t ih => simp [byteHexChars, ih]; omega

lemma md5Hex_length (s : String) : (md5Hex s).length = 32 := by
  show ((md5Digest (strBytes s)).flatMap byteHexChars).length = 32
  rw [flatMap_byteHex_length, md5Digest_length]

lemma hexDigitChar_isHex (n : Nat) (h : n < 16) : isHexChar (hexDigitChar n) = true := by
  interval_cases n <;> decide

lemma md5Hex_chars (s : String) : ∀ c ∈ (md5Hex s).data, isHexChar c = true := by
  intro c hc
  have hc2 : c ∈ (md5Digest (strBytes s)).flatMap byteHexChars := hc
  rw [List.mem_flatMap] at hc2
  obtain ⟨b, hb, hcb⟩ := hc2
  have hblt : b < 256 := md5Digest_lt _ b hb
  simp only [byteHexChars, List.mem_cons, List.mem_singleton] at hcb
  rcases hcb with rfl | rfl | h
  · exact hexDigitChar_isHex _ ((Nat.div_lt_iff_lt_mul (by norm_num)).2 hblt)
  · exact hexDigitChar_isHex _ (Nat.mod_lt _ (by norm_num))
  · cases h

/-! Part 8: lemmas characterizing the phases of `espeak_exec`. -/

lemma cachePhase_no_copy (cfg : Config) (w : World) (fs : Fs) (t : String) (up : Bool) :
    ((cachePhase cfg w fs t up).trOf).any isCopy = false := by
  simp only [cachePhase]
  split_ifs <;> simp [CacheOut.trOf, isCopy]

lemma cachePhase_no_synth (cfg : Config) (w : World) (fs : Fs) (t : String) (up : Bool) :
    ((cachePhase cfg w fs t up).trOf).any isSynth = false := by
  simp only [cachePhase]
  split_ifs <;> simp [CacheOut.trOf, isSynth]

lemma cachePhase_no_resample (cfg : Config) (w : World) (fs : Fs) (t : String) (up : Bool) :
    ((cachePhase cfg w fs t up).trOf).any isResample = false := by
  simp only [cachePhase]
  split_ifs <;> simp [CacheOut.trOf, isResample]

lemma synthPhase_no_copy (w : World) (fs : Fs) (t v : String) :
    ((synthPhase w fs t v).1.trOf).any isCopy = false := by
  unfold synthPhase
  split_ifs <;> simp [SynthOut.trOf, isCopy]

lemma resamplePhase_no_copy (cfg : Config) (w : World) (fs : Fs) (native : Nat) :
    ((resamplePhase cfg w fs native).1.trOf).any isCopy = false := by
  unfold resamplePhase
  split_ifs <;> simp [ResampleOut.trOf, isCopy]

lemma finishPhase_none_no_copy (cfg : Config) (w : World) (fs : Fs) (up : Bool) :
    ((finishPhase cfg w fs none up).2.1).any isCopy = false := by
  unfold finishPhase
  split_ifs <;> simp [isCopy]

lemma cachePhase_nouse (cfg : Config) (w : World) (fs : Fs) (t : String) (up : Bool)
    (h : cfg.usecache = false) : cachePhase cfg w fs t up = CacheOut.cont none [] up := by
  unfold cachePhase
  rw [h]
  simp

lemma cachePhase_toolong (cfg : Config) (w : World) (fs : Fs) (t : String) (up : Bool)
    (h1 : cfg.usecache = true)
    (h2 : ¬ (cfg.cachedir.length + (md5Hex t).length + 6 ≤ MAXLEN)) :
    cachePhase cfg w fs t up = CacheOut.cont none [] up := by
  unfold cachePhase
  rw [h1]
  simp [h2]

lemma cachePhase_miss (cfg : Config) (w : World) (fs : Fs) (t : String) (up : Bool)
    (h1 : cfg.usecache = true)
    (h2 : cfg.cachedir.length + (md5Hex t).length + 6 ≤ MAXLEN)
    (h3 : fs (cacheName cfg t) = none) :
    cachePhase cfg w fs t up = CacheOut.cont (some (cacheName cfg t)) [] up := by
  unfold cachePhase
  rw [h1]
  simp [h2, h3]

lemma cachePhase_hit_ok (cfg : Config) (w : World) (fs : Fs) (t : String) (up : Bool)
    (h1 : cfg.usecache = true)
    (h2 : cfg.cachedir.length + (md5Hex t).length + 6 ≤ MAXLEN)
    (h3 : (fs (cacheName cfg t)).isSome = true)
    (h4 : w.streamRes (cacheName cfg t) = 0) :
    cachePhase cfg w fs t up = CacheOut.ret (w.waitRes (cacheName cfg t))
      ((if up then [] else [Ev.answer]) ++
        [Ev.play (cacheName cfg t) (fs (cacheName cfg t)),
         Ev.waitstream (cacheName cfg t), Ev.stopstream]) true := by
  unfold cachePhase
  rw [h1]
  simp [h2, h3, h4]

lemma cachePhase_hit_fail (cfg : Config) (w : World) (fs : Fs) (t : String) (up : Bool)
    (h1 : cfg.usecache = true)
    (h2 : cfg.cachedir.length + (md5Hex t).length + 6 ≤ MAXLEN)
    (h3 : (fs (cacheName cfg t)).isSome = true)
    (h4 : w.streamRes (cacheName cfg t) ≠ 0) :
    cachePhase cfg w fs t up = CacheOut.cont none
      ((if up then [] else [Ev.answer]) ++
        [Ev.play (cacheName cfg t) (fs (cacheName cfg t)), Ev.err]) true := by
  unfold cachePhase
  rw [h1]
  simp [h2, h3, h4]

lemma cachePhase_cont_some (cfg : Config) (w : World) (fs : Fs) (t : String) (up : Bool)
    (cf : String) (tr0 : List Ev) (up1 : Bool)
    (h : cachePhase cfg w fs t up = CacheOut.cont (some cf) tr0 up1) :
    cfg.usecache = true ∧ cfg.cachedir.length + (md5Hex t).length + 6 ≤ MAXLEN ∧
      fs (cacheName cfg t) = none ∧ cf = cacheName cfg t ∧ tr0 = [] ∧ up1 = up := by
  simp only [cachePhase] at h
  split_ifs at h with h1 h2 h3 h4 h5 <;>
    simp_all [Option.not_isSome_iff_eq_none]

lemma synthPhase_ok (w : World) (fs : Fs) (text voice : String)
    (h1 : w.initFail = false) (h2 : w.mkstempOk = true) (h3 : w.fdopenOk = true)
    (h4 : w.synthOk = true) :
    synthPhase w fs text voice =
      (SynthOut.cont [Ev.setVoice voice, Ev.synth text] w.nativeRate,
       Fs.set fs w.tempName (some ⟨w.synthData, Fmt.rawf⟩)) := by
  unfold synthPhase
  rw [h1, h2, h3, h4]
  simp [Fs.set_set]

lemma synthPhase_fail (w : World) (fs : Fs) (text voice : String)
    (h1 : w.initFail = false) (h2 : w.mkstempOk = true) (h3 : w.fdopenOk = true)
    (h4 : w.synthOk = false) :
    synthPhase w fs text voice =
      (SynthOut.ret (-1)
        [Ev.setVoice voice, Ev.synth text, Ev.err, Ev.filedelete w.tempName],
       Fs.set fs w.tempName none) := by
  unfold synthPhase
  rw [h1, h2, h3, h4]
  simp [Fs.set_set]

lemma resamplePhase_skip (cfg : Config) (w : World) (fs : Fs) (native : Nat)
    (h : native = cfg.target_sample_rate) :
    resamplePhase cfg w fs native = (ResampleOut.cont [], fs) := by
  unfold resamplePhase
  simp [h]

lemma resamplePhase_ok (cfg : Config) (w : World) (fs : Fs) (native : Nat)
    (h : native ≠ cfg.target_sample_rate)
    (h1 : w.sfOpenOk = true) (h2 : w.mallocSrcOk = true) (h3 : w.mallocDstOk = true)
    (h4 : w.srcSimpleRes = 0) :
    resamplePhase cfg w fs native =
      (ResampleOut.cont
        [Ev.resample (fileFrames fs w.tempName)
          (fileFrames fs w.tempName * cfg.target_sample_rate / native)],
       Fs.set fs w.tempName
        (some ⟨(List.range (fileFrames fs w.tempName * cfg.target_sample_rate / native)).map
          w.interp, Fmt.rawf⟩)) := by
  unfold resamplePhase
  rw [h1, h2, h3, h4]
  simp [h]

lemma resamplePhase_srcfail (cfg : Config) (w : World) (fs : Fs) (native : Nat)
    (h : native ≠ cfg.target_sample_rate)
    (h1 : w.sfOpenOk = true) (h2 : w.mallocSrcOk = true) (h3 : w.mallocDstOk = true)
    (h4 : w.srcSimpleRes ≠ 0) :
    resamplePhase cfg w fs native =
      (ResampleOut.ret (-1)
        [Ev.resample (fileFrames fs w.tempName)
          (fileFrames fs w.tempName * cfg.target_sample_rate / native),
         Ev.err, Ev.filedelete w.tempName],
       Fs.set fs w.tempName none) := by
  unfold resamplePhase
  rw [h1, h2, h3]
  simp [h, h4]

lemma finishPhase_some {cfg : Config} {w : World} {fs : Fs} {rec : FileRec}
    {cf : String} {up : Bool}
    (hrec : fs w.tempName = some rec) (hcf : cf ≠ w.tempName)
    (hstream : w.streamRes w.tempName = 0) :
    finishPhase cfg w fs (some cf) up =
      (w.waitRes w.tempName,
       [Ev.renameFile w.tempName (w.tempName ++ extOfFmt (fmtOfRate cfg.target_sample_rate)),
        Ev.filecopy w.tempName cf] ++
        (if up then [] else [Ev.answer]) ++
        [Ev.play w.tempName (some ⟨rec.data, fmtOfRate cfg.target_sample_rate⟩),
         Ev.waitstream w.tempName, Ev.stopstream, Ev.filedelete w.tempName],
       Fs.set (Fs.set (Fs.set fs w.tempName
         (some ⟨rec.data, fmtOfRate cfg.target_sample_rate⟩)) cf
         (some ⟨rec.data, fmtOfRate cfg.target_sample_rate⟩)) w.tempName none) := by
  simp only [finishPhase, hrec, hstream]
  simp [Fs.set_same, Fs.set_other _ _ _ _ (Ne.symm hcf)]

lemma finishPhase_none_ok {cfg : Config} {w : World} {fs : Fs} {rec : FileRec} {up : Bool}
    (hrec : fs w.tempName = some rec) (hstream : w.streamRes w.tempName = 0) :
    finishPhase cfg w fs none up =
      (w.waitRes w.tempName,
       [Ev.renameFile w.tempName (w.tempName ++ extOfFmt (fmtOfRate cfg.target_sample_rate))] ++
        (if up then [] else [Ev.answer]) ++
        [Ev.play w.tempName (some ⟨rec.data, fmtOfRate cfg.target_sample_rate⟩),
         Ev.waitstream w.tempName, Ev.stopstream, Ev.filedelete w.tempName],
       Fs.set fs w.tempName none) := by
  simp only [finishPhase, hrec, hstream]
  simp [Fs.set_same, Fs.set_set]

lemma exec_cache_hit_ok {cfg : Config} {w : World} {fs : Fs} {data : String}
    (hd : data.isEmpty = false) (ht : (execText data).isEmpty = false)
    (h1 : cfg.usecache = true)
    (h2 : cfg.cachedir.length + (md5Hex (execText data)).length + 6 ≤ MAXLEN)
    (h3 : (fs (cacheName cfg (execText data))).isSome = true)
    (h4 : w.streamRes (cacheName cfg (execText data)) = 0) :
    espeak_exec cfg w fs data =
      (w.waitRes (cacheName cfg (execText data)),
       (if w.chanUp then [] else [Ev.answer]) ++
         [Ev.play (cacheName cfg (execText data)) (fs (cacheName cfg (execText data))),
          Ev.waitstream (cacheName cfg (execText data)), Ev.stopstream],
       fs) := by
  simp only [espeak_exec, hd, ht, Bool.false_eq_true, if_false,
    cachePhase_hit_ok cfg w fs (execText data) w.chanUp h1 h2 h3 h4]

lemma exec_synth_fail {cfg : Config} {w : World} {fs : Fs} {data : String}
    {ct : Option String} {tr0 : List Ev} {up1 : Bool}
    (hd : data.isEmpty = false) (ht : (execText data).isEmpty = false)
    (hc : cachePhase cfg w fs (execText data) w.chanUp = CacheOut.cont ct tr0 up1)
    (h1 : w.initFail = false) (h2 : w.mkstempOk = true) (h3 : w.fdopenOk = true)
    (h4 : w.synthOk = false) :
    espeak_exec cfg w fs data =
      (-1, tr0 ++ [Ev.setVoice (execVoice cfg data), Ev.synth (execText data),
        Ev.err, Ev.filedelete w.tempName], Fs.set fs w.tempName none) := by
  simp only [espeak_exec, hd, ht, Bool.false_eq_true, if_false, hc,
    synthPhase_fail w fs (execText data) (execVoice cfg data) h1 h2 h3 h4]

lemma exec_resample_fail {cfg : Config} {w : World} {fs : Fs} {data : String}
    {ct : Option String} {tr0 : List Ev} {up1 : Bool}
    (hd : data.isEmpty = false) (ht : (execText data).isEmpty = false)
    (hc : cachePhase cfg w fs (execText data) w.chanUp = CacheOut.cont ct tr0 up1)
    (h1 : w.initFail = false) (h2 : w.mkstempOk = true) (h3 : w.fdopenOk = true)
    (h4 : w.synthOk = true)
    (hneq : w.nativeRate ≠ cfg.target_sample_rate)
    (hsf : w.sfOpenOk = true) (hms : w.mallocSrcOk = true) (hmd : w.mallocDstOk = true)
    (hsrc : w.srcSimpleRes ≠ 0) :
    espeak_exec cfg w fs data =
      (-1,
       tr0 ++ [Ev.setVoice (execVoice cfg data), Ev.synth (execText data),
         Ev.resample w.synthData.length
           (w.synthData.length * cfg.target_sample_rate / w.nativeRate),
         Ev.err, Ev.filedelete w.tempName],
       Fs.set fs w.tempName none) := by
  simp only [espeak_exec, hd, ht, Bool.false_eq_true, if_false, hc,
    synthPhase_ok w fs (execText data) (execVoice cfg data) h1 h2 h3 h4]
  rw [resamplePhase_srcfail _ _ _ _ hneq hsf hms hmd hsrc]
  simp [fileFrames_set, Fs.set_set]

lemma exec_cont_success {cfg : Config} {w : World} {fs : Fs} {data : String}
    {ct : Option String} {tr0 : List Ev} {up1 : Bool}
    (hd : data.isEmpty = false) (ht : (execText data).isEmpty = false)
    (hc : cachePhase cfg w fs (execText data) w.chanUp = CacheOut.cont ct tr0 up1)
    (h1 : w.initFail = false) (h2 : w.mkstempOk = true) (h3 : w.fdopenOk = true)
    (h4 : w.synthOk = true)
    (hres : w.nativeRate = cfg.target_sample_rate ∨
      (w.sfOpenOk = true ∧ w.mallocSrcOk = true ∧ w.mallocDstOk = true ∧
        w.srcSimpleRes = 0)) :
    espeak_exec cfg w fs data =
      ((finishPhase cfg w (Fs.set fs w.tempName (some ⟨outDataOf w cfg, Fmt.rawf⟩)) ct up1).1,
       tr0 ++ [Ev.setVoice (execVoice cfg data), Ev.synth (execText data)] ++
         rsTrOf w cfg ++
         (finishPhase cfg w (Fs.set fs w.tempName (some ⟨outDataOf w cfg, Fmt.rawf⟩)) ct
           up1).2.1,
       (finishPhase cfg w (Fs.set fs w.tempName (some ⟨outDataOf w cfg, Fmt.rawf⟩)) ct
         up1).2.2) := by
  by_cases heq : w.nativeRate = cfg.target_sample_rate
  · simp only [espeak_exec, hd, ht, Bool.false_eq_true, if_false, hc,
      synthPhase_ok w fs (execText data) (execVoice cfg data) h1 h2 h3 h4]
    rw [resamplePhase_skip _ _ _ _ heq]
    simp [outDataOf, rsTrOf, heq]
  · obtain ⟨hsf, hms, hmd, hsrc⟩ := hres.resolve_left heq
    simp only [espeak_exec, hd, ht, Bool.false_eq_true, if_false, hc,
      synthPhase_ok w fs (execText data) (execVoice cfg data) h1 h2 h3 h4]
    rw [resamplePhase_ok _ _ _ _ heq hsf hms hmd hsrc]
    simp [outDataOf, rsTrOf, outFramesOf, heq, fileFrames_set, Fs.set_set]

lemma copy_only_on_miss (cfg : Config) (w : World) (fs : Fs) (data : String)
    (h : (execTr cfg w fs data).any isCopy = true) :
    cfg.usecache = true ∧
      cfg.cachedir.length + (md5Hex (execText data)).length + 6 ≤ MAXLEN ∧
      fs (cacheName cfg (execText data)) = none := by
  by_cases hd : data.isEmpty
  · unfold execTr espeak_exec at h
    simp [hd, isCopy] at h
  · by_cases ht : (execText data).isEmpty
    · unfold execTr espeak_exec at h
      simp [hd, ht, isCopy] at h
    · cases hcp : cachePhase cfg w fs (execText data) w.chanUp with
      | ret r tr up2 =>
        exfalso
        have hno := cachePhase_no_copy cfg w fs (execText data) w.chanUp
        rw [hcp] at hno
        simp only [CacheOut.trOf] at hno
        unfold execTr espeak_exec at h
        simp only [hd, ht, Bool.false_eq_true, if_false, hcp] at h
        simp [hno] at h
      | cont ct tr0 up1 =>
        cases ct with
        | some cf =>
          obtain ⟨hu, hfit, hmiss, _, _, _⟩ :=
            cachePhase_cont_some cfg w fs (execText data) w.chanUp cf tr0 up1 hcp
          exact ⟨hu, hfit, hmiss⟩
        | none =>
          exfalso
          have hno0 := cachePhase_no_copy cfg w fs (execText data) w.chanUp
          rw [hcp] at hno0
          simp only [CacheOut.trOf] at hno0
          unfold execTr espeak_exec at h
          simp only [hd, ht, Bool.false_eq_true, if_false, hcp] at h
          rcases hso : synthPhase w fs (execText data) (execVoice cfg data) with ⟨so, fs1⟩
          have hno1 := synthPhase_no_copy w fs (execText data) (execVoice cfg data)
          rw [hso] at hno1
          cases so with
          | ret r1 trS =>
            simp only [SynthOut.trOf] at hno1
            simp [hso, List.any_append, hno0, hno1] at h
          | cont trS native =>
            simp only [SynthOut.trOf] at hno1
            rcases hro : resamplePhase cfg w fs1 native with ⟨ro, fs2⟩
            have hno2 := resamplePhase_no_copy cfg w fs1 native
            rw [hro] at hno2
            cases ro with
            | ret r2 trR =>
              simp only [ResampleOut.trOf] at hno2
              simp [hso, hro, List.any_append, hno0, hno1, hno2] at h
            | cont trR =>
              simp only [ResampleOut.trOf] at hno2
              have hno3 := finishPhase_none_no_copy cfg w fs2 up1
              simp [hso, hro, List.any_append, hno0, hno1, hno2, hno3] at h

lemma finishPhase_fs_some {cfg : Config} {w : World} {fs : Fs} {rec : FileRec}
    {cf : String} {up : Bool}
    (hrec : fs w.tempName = some rec) (hcf : cf ≠ w.tempName) :
    (finishPhase cfg w fs (some cf) up).2.2 cf =
      some ⟨rec.data, fmtOfRate cfg.target_sample_rate⟩ := by
  simp only [finishPhase, hrec]
  split_ifs <;>
    simp [Fs.set_other _ _ _ _ hcf, Fs.set_same]

lemma finishPhase_play_mem (cfg : Config) {w : World} {fs : Fs} {rec : FileRec}
    {ct : Option String} (up : Bool)
    (hrec : fs w.tempName = some rec)
    (hct : ∀ cf, ct = some cf → cf ≠ w.tempName) :
    Ev.play w.tempName (some ⟨rec.data, fmtOfRate cfg.target_sample_rate⟩) ∈
      (finishPhase cfg w fs ct up).2.1 := by
  cases ct with
  | none =>
    simp only [finishPhase, hrec]
    split_ifs <;> simp [Fs.set_same]
  | some cf =>
    have hne := hct cf rfl
    simp only [finishPhase, hrec]
    split_ifs <;>
      simp [Fs.set_same, Fs.set_other _ _ _ _ (Ne.symm hne)]

lemma finishPhase_no_resample (cfg : Config) (w : World) (fs : Fs) (ct : Option String)
    (up : Bool) : ((finishPhase cfg w fs ct up).2.1).any isResample = false := by
  cases ct <;> simp only [finishPhase] <;> split_ifs <;> simp [isResample]

lemma any_false_countP_zero (l : List Ev) (p : Ev → Bool) (h : l.any p = false) :
    l.countP p = 0 := by
  rw [List.countP_eq_zero]
  intro a ha
  rw [List.any_eq_false] at h
  exact h a ha

lemma floor_mul_div (n rt rs : Nat) :
    Nat.floor (((n * rt : ℕ) : ℚ) / (rs : ℚ)) = n * rt / rs := by
  rw [Nat.floor_div_nat, Nat.floor_natCast]

lemma raw_resample_outFrames_eq (n rt rs : Nat) :
    raw_resample_outFrames n rt rs = n * rt / rs := by
  unfold raw_resample_outFrames
  rw [← mul_div_assoc, ← Nat.cast_mul, Nat.floor_div_nat, Nat.floor_natCast]

lemma cfgLong_toolong :
    ¬ (cfgLong.cachedir.length + (md5Hex (execText "x")).length + 6 ≤ MAXLEN) := by
  have hlen : cfgLong.cachedir.length = 2050 := by
    rw [show cfgLong.cachedir = String.mk (List.replicate 2050 (Char.ofNat 97)) from rfl,
      String.length_mk]
    exact List.length_replicate _ _
  rw [hlen, md5Hex_length]
  decide

/-! Part 9: the claims. -/

/-- C1: with usecache enabled and the composed cache path within the length
bound, submitting the same text twice makes the second request find the cache
file the first request wrote at cachedir/<fingerprint>, play it, and return
(with the wait-stream result), without invoking the TTS engine and without
writing a new cache entry; the filesystem is unchanged by the second request. -/
theorem C1_cache_round_trip
    (cfg : Config) (w1 w2 : World) (fs0 : Fs) (data : String)
    (hu : cfg.usecache = true)
    (hfit : cfg.cachedir.length + (md5Hex (execText data)).length + 6 ≤ MAXLEN)
    (hd : data.isEmpty = false)
    (ht : (execText data).isEmpty = false)
    (hmiss : fs0 (cacheName cfg (execText data)) = none)
    (h1i : w1.initFail = false) (h1m : w1.mkstempOk = true)
    (h1f : w1.fdopenOk = true) (h1s : w1.synthOk = true)
    (h1r : w1.nativeRate = cfg.target_sample_rate ∨
      (w1.sfOpenOk = true ∧ w1.mallocSrcOk = true ∧ w1.mallocDstOk = true ∧
        w1.srcSimpleRes = 0))
    (htmp : cacheName cfg (execText data) ≠ w1.tempName)
    (h2s : w2.streamRes (cacheName cfg (execText data)) = 0) :
    (execFs cfg w1 fs0 data (cacheName cfg (execText data))).isSome = true ∧
    espeak_exec cfg w2 (execFs cfg w1 fs0 data) data =
      (w2.waitRes (cacheName cfg (execText data)),
       (if w2.chanUp then [] else [Ev.answer]) ++
         [Ev.play (cacheName cfg (execText data))
            (execFs cfg w1 fs0 data (cacheName cfg (execText data))),
          Ev.waitstream (cacheName cfg (execText data)), Ev.stopstream],
       execFs cfg w1 fs0 data) ∧
    (execTr cfg w2 (execFs cfg w1 fs0 data) data).any isSynth = false ∧
    (execTr cfg w2 (execFs cfg w1 fs0 data) data).any isCopy = false := by
  have hc := cachePhase_miss cfg w1 fs0 (execText data) w1.chanUp hu hfit hmiss
  have hmain := exec_cont_success hd ht hc h1i h1m h1f h1s h1r
  have hfs1 : execFs cfg w1 fs0 data (cacheName cfg (execText data)) =
      some ⟨outDataOf w1 cfg, fmtOfRate cfg.target_sample_rate⟩ := by
    unfold execFs
    rw [hmain]
    exact finishPhase_fs_some (Fs.set_same _ _ _) htmp
  have hhit : (execFs cfg w1 fs0 data (cacheName cfg (execText data))).isSome = true := by
    rw [hfs1]; rfl
  have h2 := exec_cache_hit_ok hd ht hu hfit hhit h2s
  refine ⟨hhit, h2, ?_, ?_⟩ <;>
    · unfold execTr
      rw [h2]
      cases hcu : w2.chanUp <;> simp [isSynth, isCopy]

/-- C9: the cache fingerprint is a deterministic function of the exact text
payload, a 32-character lowercase hexadecimal MD5 digest (128 bits), and the
cache entry path is composed as cachedir/<fingerprint>; on a miss the armed
cache-write target is exactly that path. -/
theorem C9_fingerprint_deterministic
    (cfg : Config) (w : World) (fs : Fs) (text : String) (up : Bool)
    (hu : cfg.usecache = true)
    (hfit : cfg.cachedir.length + (md5Hex text).length + 6 ≤ MAXLEN)
    (hmiss : fs (cacheName cfg text) = none) :
    (∀ s t : String, s = t → md5Hex s = md5Hex t) ∧
    (md5Hex text).length = 32 ∧
    (∀ c ∈ (md5Hex text).data, isHexChar c = true) ∧
    cacheName cfg text = cfg.cachedir ++ "/" ++ md5Hex text ∧
    cachePhase cfg w fs text up =
      CacheOut.cont (some (cfg.cachedir ++ "/" ++ md5Hex text)) [] up := by
  refine ⟨fun s t h => by rw [h], md5Hex_length text, md5Hex_chars text, rfl, ?_⟩
  exact cachePhase_miss cfg w fs text up hu hfit hmiss

/-- C10: an invocation whose text argument is empty, or only blanks, after
quote stripping returns 0 after logging a warning, with no engine call, no
cache interaction, no playback and an unchanged filesystem; an invocation
with a completely empty argument string returns -1 after logging an error. -/
theorem C10_empty_text
    (cfg : Config) (w : World) (fs : Fs) (data : String) :
    (data.isEmpty = true → espeak_exec cfg w fs data = (-1, [Ev.err], fs)) ∧
    (data.isEmpty = false → (execText data).isEmpty = true →
      espeak_exec cfg w fs data = (0, [Ev.warn], fs)) := by
  constructor
  · intro h
    simp [espeak_exec, h]
  · intro h h2
    simp [espeak_exec, h, h2]

/-- Witness for C1 at a concrete configuration, worlds, filesystem and text. -/
theorem C1_cache_round_trip_witness :
    (execFs cfgC wOK fsEmpty "hi" (cacheName cfgC (execText "hi"))).isSome = true ∧
    (execTr cfgC wOK (execFs cfgC wOK fsEmpty "hi") "hi").any isSynth = false ∧
    (execTr cfgC wOK (execFs cfgC wOK fsEmpty "hi") "hi").any isCopy = false := by
  have h := C1_cache_round_trip cfgC wOK wOK fsEmpty "hi" (by decide) (by decide)
    (by decide) (by decide) (by decide) (by decide) (by decide) (by decide) (by decide)
    (Or.inr (by decide)) (by decide) (by decide)
  exact ⟨h.1, h.2.2.1, h.2.2.2⟩

/-- Witness for C9 at a concrete configuration and text. -/
theorem C9_fingerprint_deterministic_witness :
    (md5Hex "hi").length = 32 ∧
    cachePhase cfgC wOK fsEmpty "hi" true =
      CacheOut.cont (some (cfgC.cachedir ++ "/" ++ md5Hex "hi")) [] true := by
  have h := C9_fingerprint_deterministic cfgC wOK fsEmpty "hi" true (by decide)
    (by decide) (by decide)
  exact ⟨h.2.1, h.2.2.2.2⟩

/-- Witness for C10: the empty argument returns -1, a blank-only text
argument returns 0 with only a warning. -/
theorem C10_empty_text_witness :
    espeak_exec cfgN wOK fsEmpty "" = (-1, [Ev.err], fsEmpty) ∧
    espeak_exec cfgN wOK fsEmpty " " = (0, [Ev.warn], fsEmpty) := by
  exact ⟨(C10_empty_text cfgN wOK fsEmpty "").1 (by decide),
    (C10_empty_text cfgN wOK fsEmpty " ").2 (by decide) (by decide)⟩

/-- C2: on the success path with the native rate differing from the target
rate, the resample step is invoked on the synthesized frame count N and
produces exactly N * Rt / Rs output frames (in exact arithmetic this equals
the floor of the rational N * Rt / Rs, so it is within the ±1 tolerance of
the specification); the output buffer holds that many frames and is played
under the format tag of the target rate; the `raw_resample` frame formula of
the eSpeak-ng variant agrees. -/
theorem C2_resample_frame_count
    (cfg : Config) (w : World) (fs : Fs) (data : String)
    (ct : Option String) (tr0 : List Ev) (up1 : Bool)
    (hd : data.isEmpty = false) (ht : (execText data).isEmpty = false)
    (hc : cachePhase cfg w fs (execText data) w.chanUp = CacheOut.cont ct tr0 up1)
    (hct : ∀ cf, ct = some cf → cf ≠ w.tempName)
    (h1 : w.initFail = false) (h2 : w.mkstempOk = true) (h3 : w.fdopenOk = true)
    (h4 : w.synthOk = true)
    (hneq : w.nativeRate ≠ cfg.target_sample_rate)
    (hrt : cfg.target_sample_rate = 8000 ∨ cfg.target_sample_rate = 16000)
    (hsf : w.sfOpenOk = true) (hms : w.mallocSrcOk = true) (hmd : w.mallocDstOk = true)
    (hsrc : w.srcSimpleRes = 0) :
    Ev.resample w.synthData.length
      (w.synthData.length * cfg.target_sample_rate / w.nativeRate) ∈
      execTr cfg w fs data ∧
    w.synthData.length * cfg.target_sample_rate / w.nativeRate =
      Nat.floor (((w.synthData.length * cfg.target_sample_rate : ℕ) : ℚ) /
        (w.nativeRate : ℚ)) ∧
    raw_resample_outFrames w.synthData.length cfg.target_sample_rate w.nativeRate =
      w.synthData.length * cfg.target_sample_rate / w.nativeRate ∧
    Ev.play w.tempName
      (some ⟨(List.range (w.synthData.length * cfg.target_sample_rate / w.nativeRate)).map
        w.interp, fmtOfRate cfg.target_sample_rate⟩) ∈ execTr cfg w fs data ∧
    ((List.range (w.synthData.length * cfg.target_sample_rate / w.nativeRate)).map
      w.interp).length =
      w.synthData.length * cfg.target_sample_rate / w.nativeRate ∧
    rateOfFmt (fmtOfRate cfg.target_sample_rate) = cfg.target_sample_rate := by
  have hmain := exec_cont_success hd ht hc h1 h2 h3 h4
    (Or.inr ⟨hsf, hms, hmd, hsrc⟩)
  have hout : outDataOf w cfg =
      (List.range (w.synthData.length * cfg.target_sample_rate / w.nativeRate)).map
        w.interp := by
    simp [outDataOf, outFramesOf, hneq]
  have hplay := finishPhase_play_mem cfg up1
    (Fs.set_same fs w.tempName (some ⟨outDataOf w cfg, Fmt.rawf⟩)) hct
  refine ⟨?_, ?_, ?_, ?_, ?_, ?_⟩
  · unfold execTr
    rw [hmain]
    simp [rsTrOf, outFramesOf, hneq]
  · rw [floor_mul_div]
  · exact raw_resample_outFrames_eq _ _ _
  · have hplay2 : Ev.play w.tempName
        (some ⟨outDataOf w cfg, fmtOfRate cfg.target_sample_rate⟩) ∈
        (finishPhase cfg w (Fs.set fs w.tempName (some ⟨outDataOf w cfg, Fmt.rawf⟩)) ct
          up1).2.1 := by
      simpa using hplay
    unfold execTr
    rw [hmain, ← hout]
    simp [hplay2]
  · simp
  · rcases hrt with h | h <;> simp [fmtOfRate, rateOfFmt, h]

/-- Witness for C2: 22050 Hz native audio of 3 frames resampled to 8000 Hz
gives 3 * 8000 / 22050 = 1 frame. -/
theorem C2_resample_frame_count_witness :
    Ev.resample 3 1 ∈ execTr cfgN wOK fsEmpty "hi" ∧
    raw_resample_outFrames 3 8000 22050 = 1 := by
  have h := C2_resample_frame_count cfgN wOK fsEmpty "hi" none [] true (by decide)
    (by decide) (by decide) (fun cf hcf => Option.noConfusion hcf) (by decide) (by decide)
    (by decide) (by decide) (by decide) (Or.inl (by decide)) (by decide) (by decide)
    (by decide) (by decide)
  exact ⟨h.1, h.2.2.1⟩

/-- C3: on the success path the interpolation step is invoked if and only if
the native rate differs from the target rate; when they are equal, the
synthesized PCM buffer is handed to playback unchanged. -/
theorem C3_resample_iff_rate_differs
    (cfg : Config) (w : World) (fs : Fs) (data : String)
    (ct : Option String) (tr0 : List Ev) (up1 : Bool)
    (hd : data.isEmpty = false) (ht : (execText data).isEmpty = false)
    (hc : cachePhase cfg w fs (execText data) w.chanUp = CacheOut.cont ct tr0 up1)
    (hct : ∀ cf, ct = some cf → cf ≠ w.tempName)
    (h1 : w.initFail = false) (h2 : w.mkstempOk = true) (h3 : w.fdopenOk = true)
    (h4 : w.synthOk = true)
    (hsf : w.sfOpenOk = true) (hms : w.mallocSrcOk = true) (hmd : w.mallocDstOk = true)
    (hsrc : w.srcSimpleRes = 0) :
    ((execTr cfg w fs data).any isResample = true ↔
      w.nativeRate ≠ cfg.target_sample_rate) ∧
    (w.nativeRate = cfg.target_sample_rate →
      Ev.play w.tempName (some ⟨w.synthData, fmtOfRate cfg.target_sample_rate⟩) ∈
        execTr cfg w fs data) := by
  have hmain := exec_cont_success hd ht hc h1 h2 h3 h4
    (Or.inr ⟨hsf, hms, hmd, hsrc⟩)
  have hno0 := cachePhase_no_resample cfg w fs (execText data) w.chanUp
  rw [hc] at hno0
  simp only [CacheOut.trOf] at hno0
  have hnoF := finishPhase_no_resample cfg w
    (Fs.set fs w.tempName (some ⟨outDataOf w cfg, Fmt.rawf⟩)) ct up1
  constructor
  · unfold execTr
    rw [hmain]
    simp only [List.any_append, hno0, hnoF, Bool.or_false, Bool.false_or]
    by_cases heq : w.nativeRate = cfg.target_sample_rate
    · simp [rsTrOf, heq, isResample]
    · simp [rsTrOf, heq, isResample]
  · intro heq
    have hplay := finishPhase_play_mem cfg up1
      (Fs.set_same fs w.tempName (some ⟨outDataOf w cfg, Fmt.rawf⟩)) hct
    have hout : outDataOf w cfg = w.synthData := by simp [outDataOf, heq]
    have hplay2 : Ev.play w.tempName
        (some ⟨outDataOf w cfg, fmtOfRate cfg.target_sample_rate⟩) ∈
        (finishPhase cfg w (Fs.set fs w.tempName (some ⟨outDataOf w cfg, Fmt.rawf⟩)) ct
          up1).2.1 := by
      simpa using hplay
    unfold execTr
    rw [hmain, ← hout]
    simp [hplay2]

/-- Witness for C3: with the native rate equal to the 8000 Hz target the trace
holds no resample event and the synthesized buffer is played unchanged. -/
theorem C3_resample_iff_rate_differs_witness :
    ((execTr cfgN wEq fsEmpty "hi").any isResample = true ↔
      wEq.nativeRate ≠ cfgN.target_sample_rate) ∧
    Ev.play wEq.tempName (some ⟨wEq.synthData, fmtOfRate cfgN.target_sample_rate⟩) ∈
      execTr cfgN wEq fsEmpty "hi" := by
  have h := C3_resample_iff_rate_differs cfgN wEq fsEmpty "hi" none [] true (by decide)
    (by decide) (by decide) (fun cf hcf => Option.noConfusion hcf) (by decide) (by decide)
    (by decide) (by decide) (by decide) (by decide) (by decide) (by decide)
  exact ⟨h.1, h.2 (by decide)⟩

/-- C4: after `read_config` the target sample rate is always exactly 8000 or
16000 and the function returns 0 (the load succeeds); a configured samplerate
value that saturates `strtol` or that is any 32-bit value other than 8000 or
16000 falls back to 8000 with a samplerate warning logged, while a configured
8000 or 16000 is kept with no samplerate warning. -/
theorem C4_samplerate_fallback (file : Option CfgFile) :
    ((read_config file).cfg.target_sample_rate = 8000 ∨
      (read_config file).cfg.target_sample_rate = 16000) ∧
    (read_config file).ret = 0 ∧
    (∀ (f : CfgFile) (v : String), file = some f →
      f "general" "samplerate" = some v →
      (((strtol10 v).2 = true ∨
          (toInt32 (strtol10 v).1 ≠ 8000 ∧ toInt32 (strtol10 v).1 ≠ 16000)) →
        (read_config file).cfg.target_sample_rate = 8000 ∧
          (read_config file).rateWarned = true) ∧
      ((strtol10 v).2 = false →
        (toInt32 (strtol10 v).1 = 8000 ∨ toInt32 (strtol10 v).1 = 16000) →
        ((read_config file).cfg.target_sample_rate : Int) = toInt32 (strtol10 v).1 ∧
          (read_config file).rateWarned = false)) := by
  cases file with
  | none =>
    refine ⟨Or.inl rfl, rfl, ?_⟩
    intro f v hf
    exact Option.noConfusion hf
  | some f =>
    refine ⟨?_, rfl, ?_⟩
    · simp only [read_config]
      split_ifs with h
      · exact Or.inl (by decide)
      · rcases not_and_or.mp h with h1 | h1
        · exact Or.inl (by rw [not_ne_iff.mp h1]; decide)
        · exact Or.inr (by rw [not_ne_iff.mp h1]; decide)
    · intro f2 v hf hv
      injection hf with hf2
      subst hf2
      constructor
      · intro hbad
        simp only [read_config, readIntParam, hv]
        by_cases hp : (strtol10 v).2
        · simp [hp]
        · rcases hbad with hbad | hbad
          · exact absurd hbad hp
          · simp [hp, hbad]
      · intro her hval
        simp only [read_config, readIntParam, hv, her]
        have hcond : ¬ (toInt32 (strtol10 v).1 ≠ 8000 ∧ toInt32 (strtol10 v).1 ≠ 16000) := by
          rcases hval with h | h <;> simp [h]
        simp only [Bool.false_eq_true, if_false, hcond]
        rcases hval with h | h <;> simp [h]

/-- Witness for C4: samplerate=11025 falls back to 8000 with a warning. -/
theorem C4_samplerate_fallback_witness :
    (read_config (some cfgFile11025)).cfg.target_sample_rate = 8000 ∧
    (read_config (some cfgFile11025)).rateWarned = true := by
  exact ((C4_samplerate_fallback (some cfgFile11025)).2.2 cfgFile11025 "11025" rfl
    (by decide)).1 (Or.inr (by decide))

/-- C5 counterexample: with a cache hit whose streaming fails, `espeak_exec`
falls through to synthesis; if the engine then reports an error the request
returns -1 with a playback attempt already in its trace, so "no playback is
attempted" does not hold as stated. -/
theorem C5_counterexample :
    execRes cfgC wSynthFail fsHitX "x" = -1 ∧
    (execTr cfgC wSynthFail fsHitX "x").any isSynth = true ∧
    (execTr cfgC wSynthFail fsHitX "x").any isPlay = true ∧
    (execTr cfgC wSynthFail fsHitX "x").any isCopy = false := by decide

/-- C5 (amended): when the engine reports a non-OK synthesis error the request
returns -1, the partial output file is deleted, no cache entry is written, and
no playback of the synthesized output is attempted — the only playback events
in the trace are those of the pre-synthesis cache lookup. -/
theorem C5_synth_failure_amended
    (cfg : Config) (w : World) (fs : Fs) (data : String)
    (ct : Option String) (tr0 : List Ev) (up1 : Bool)
    (hd : data.isEmpty = false) (ht : (execText data).isEmpty = false)
    (hc : cachePhase cfg w fs (execText data) w.chanUp = CacheOut.cont ct tr0 up1)
    (h1 : w.initFail = false) (h2 : w.mkstempOk = true) (h3 : w.fdopenOk = true)
    (h4 : w.synthOk = false) :
    espeak_exec cfg w fs data =
      (-1, tr0 ++ [Ev.setVoice (execVoice cfg data), Ev.synth (execText data),
        Ev.err, Ev.filedelete w.tempName], Fs.set fs w.tempName none) ∧
    execRes cfg w fs data = -1 ∧
    execFs cfg w fs data w.tempName = none ∧
    (execTr cfg w fs data).any isCopy = false ∧
    (execTr cfg w fs data).filter isPlay = tr0.filter isPlay := by
  have hmain := exec_synth_fail hd ht hc h1 h2 h3 h4
  have hno0 := cachePhase_no_copy cfg w fs (execText data) w.chanUp
  rw [hc] at hno0
  simp only [CacheOut.trOf] at hno0
  refine ⟨hmain, ?_, ?_, ?_, ?_⟩
  · unfold execRes
    rw [hmain]
  · unfold execFs
    rw [hmain]
    exact Fs.set_same _ _ _
  · unfold execTr
    rw [hmain]
    simp [List.any_append, hno0, isCopy]
  · unfold execTr
    rw [hmain]
    simp [List.filter_append, isPlay]

/-- Witness for the amended C5 at a concrete run. -/
theorem C5_synth_failure_amended_witness :
    execRes cfgN wSynthFail fsEmpty "x" = -1 ∧
    execFs cfgN wSynthFail fsEmpty "x" wSynthFail.tempName = none ∧
    (execTr cfgN wSynthFail fsEmpty "x").any isCopy = false := by
  have h := C5_synth_failure_amended cfgN wSynthFail fsEmpty "x" none [] true
    (by decide) (by decide) (by decide) (by decide) (by decide) (by decide) (by decide)
  exact ⟨h.2.1, h.2.2.1, h.2.2.2.1⟩

/-- C6 counterexample: on a concrete cache-miss success run of app_espeak.c
the cache write (trace index 4) precedes the playback attempt (trace index 5),
and that playback attempt is the only one, so the cache write does not follow
playback as claimed. -/
theorem C6_counterexample :
    (execTr cfgC wOK fsEmpty "x")[4]? =
      some (Ev.filecopy wOK.tempName (cacheName cfgC "x")) ∧
    (execTr cfgC wOK fsEmpty "x")[5]? =
      some (Ev.play wOK.tempName (some ⟨[7], Fmt.sln⟩)) ∧
    (execTr cfgC wOK fsEmpty "x").countP isPlay = 1 ∧
    (execTr cfgC wOK fsEmpty "x").any isCopy = true := by decide

/-- C6 (amended): on a cache-miss success request the steps occur in the order
synthesize, then resample (only if needed), then rename, then the optional
cache write, and only then playback — in app_espeak.c the cache write
immediately precedes playback instead of following it; the cache write happens
only in requests whose initial lookup found no existing entry. -/
theorem C6_order_amended
    (cfg : Config) (w : World) (fs : Fs) (data : String)
    (hd : data.isEmpty = false) (ht : (execText data).isEmpty = false)
    (hu : cfg.usecache = true)
    (hfit : cfg.cachedir.length + (md5Hex (execText data)).length + 6 ≤ MAXLEN)
    (hmiss : fs (cacheName cfg (execText data)) = none)
    (htmp : cacheName cfg (execText data) ≠ w.tempName)
    (h1 : w.initFail = false) (h2 : w.mkstempOk = true) (h3 : w.fdopenOk = true)
    (h4 : w.synthOk = true)
    (hsf : w.sfOpenOk = true) (hms : w.mallocSrcOk = true) (hmd : w.mallocDstOk = true)
    (hsrc : w.srcSimpleRes = 0)
    (hstream : w.streamRes w.tempName = 0) :
    execTr cfg w fs data =
      [Ev.setVoice (execVoice cfg data), Ev.synth (execText data)] ++ rsTrOf w cfg ++
      [Ev.renameFile w.tempName
         (w.tempName ++ extOfFmt (fmtOfRate cfg.target_sample_rate)),
       Ev.filecopy w.tempName (cacheName cfg (execText data))] ++
      (if w.chanUp then [] else [Ev.answer]) ++
      [Ev.play w.tempName (some ⟨outDataOf w cfg, fmtOfRate cfg.target_sample_rate⟩),
       Ev.waitstream w.tempName, Ev.stopstream, Ev.filedelete w.tempName] ∧
    (∀ (cfg2 : Config) (w2 : World) (fs2 : Fs) (data2 : String),
      (execTr cfg2 w2 fs2 data2).any isCopy = true →
      cfg2.usecache = true ∧
      cfg2.cachedir.length + (md5Hex (execText data2)).length + 6 ≤ MAXLEN ∧
      fs2 (cacheName cfg2 (execText data2)) = none) := by
  have hc := cachePhase_miss cfg w fs (execText data) w.chanUp hu hfit hmiss
  have hmain := exec_cont_success hd ht hc h1 h2 h3 h4 (Or.inr ⟨hsf, hms, hmd, hsrc⟩)
  have hfin := @finishPhase_some cfg w
    (Fs.set fs w.tempName (some ⟨outDataOf w cfg, Fmt.rawf⟩))
    ⟨outDataOf w cfg, Fmt.rawf⟩ (cacheName cfg (execText data)) w.chanUp
    (Fs.set_same _ _ _) htmp hstream
  constructor
  · unfold execTr
    rw [hmain, hfin]
    simp
  · exact fun cfg2 w2 fs2 data2 h => copy_only_on_miss cfg2 w2 fs2 data2 h

/-- Witness for the amended C6: the only-on-miss consequence at a concrete
copying run. -/
theorem C6_order_amended_witness :
    cfgC.usecache = true ∧
    cfgC.cachedir.length + (md5Hex (execText "hi")).length + 6 ≤ MAXLEN ∧
    fsEmpty (cacheName cfgC (execText "hi")) = none := by
  exact (C6_order_amended cfgC wOK fsEmpty "hi" (by decide) (by decide) (by decide)
    (by decide) (by decide) (by decide) (by decide) (by decide) (by decide) (by decide)
    (by decide) (by decide) (by decide) (by decide) (by decide)).2 cfgC wOK fsEmpty "hi"
    (by decide)

/-- C7: when `src_simple` reports a nonzero error code the request returns -1,
the interpolation step is invoked exactly once (no retry), no playback of the
synthesized audio happens (the trace holds no playback events beyond those of
the pre-synthesis cache lookup), no cache entry is written, and the partial
output file is deleted. -/
theorem C7_resample_failure
    (cfg : Config) (w : World) (fs : Fs) (data : String)
    (ct : Option String) (tr0 : List Ev) (up1 : Bool)
    (hd : data.isEmpty = false) (ht : (execText data).isEmpty = false)
    (hc : cachePhase cfg w fs (execText data) w.chanUp = CacheOut.cont ct tr0 up1)
    (h1 : w.initFail = false) (h2 : w.mkstempOk = true) (h3 : w.fdopenOk = true)
    (h4 : w.synthOk = true)
    (hneq : w.nativeRate ≠ cfg.target_sample_rate)
    (hsf : w.sfOpenOk = true) (hms : w.mallocSrcOk = true) (hmd : w.mallocDstOk = true)
    (hsrc : w.srcSimpleRes ≠ 0) :
    espeak_exec cfg w fs data =
      (-1, tr0 ++ [Ev.setVoice (execVoice cfg data), Ev.synth (execText data),
        Ev.resample w.synthData.length
          (w.synthData.length * cfg.target_sample_rate / w.nativeRate),
        Ev.err, Ev.filedelete w.tempName], Fs.set fs w.tempName none) ∧
    execRes cfg w fs data = -1 ∧
    execFs cfg w fs data w.tempName = none ∧
    (execTr cfg w fs data).any isCopy = false ∧
    (execTr cfg w fs data).countP isResample = 1 ∧
    (execTr cfg w fs data).filter isPlay = tr0.filter isPlay := by
  have hmain := exec_resample_fail hd ht hc h1 h2 h3 h4 hneq hsf hms hmd hsrc
  have hnoc := cachePhase_no_copy cfg w fs (execText data) w.chanUp
  rw [hc] at hnoc
  simp only [CacheOut.trOf] at hnoc
  have hnor := cachePhase_no_resample cfg w fs (execText data) w.chanUp
  rw [hc] at hnor
  simp only [CacheOut.trOf] at hnor
  refine ⟨hmain, ?_, ?_, ?_, ?_, ?_⟩
  · unfold execRes
    rw [hmain]
  · unfold execFs
    rw [hmain]
    exact Fs.set_same _ _ _
  · unfold execTr
    rw [hmain]
    simp [List.any_append, hnoc, isCopy]
  · unfold execTr
    rw [hmain]
    rw [List.countP_append, any_false_countP_zero _ _ hnor]
    simp [List.countP_cons, isResample]
  · unfold execTr
    rw [hmain]
    simp [List.filter_append, isPlay]

/-- Witness for C7 at a concrete failing interpolation step. -/
theorem C7_resample_failure_witness :
    execRes cfgN wSrcFail fsEmpty "x" = -1 ∧
    execFs cfgN wSrcFail fsEmpty "x" wSrcFail.tempName = none ∧
    (execTr cfgN wSrcFail fsEmpty "x").countP isResample = 1 := by
  have h := C7_resample_failure cfgN wSrcFail fsEmpty "x" none [] true (by decide)
    (by decide) (by decide) (by decide) (by decide) (by decide) (by decide) (by decide)
    (by decide) (by decide) (by decide) (by decide)
  exact ⟨h.2.1, h.2.2.1, h.2.2.2.2.1⟩

/-- C8: the cache lookup yields no hit exactly when usecache is disabled, the
composed path exceeds the length bound, or no file exists at the composed
path; in each no-hit case the block contributes no events and the request
proceeds to synthesis (on a miss with `writecache` armed); when the path is
too long, caching is skipped silently for the whole request and no cache
write ever happens; when all three hit conditions hold the entry is played
(returning on stream success, falling through with no armed write on stream
failure). -/
theorem C8_cache_lookup_cases
    (cfg : Config) (w : World) (fs : Fs) (text : String) (up : Bool) :
    ((cacheHit cfg fs text = false) ↔
      (cfg.usecache = false ∨
        ¬ (cfg.cachedir.length + (md5Hex text).length + 6 ≤ MAXLEN) ∨
        fs (cacheName cfg text) = none)) ∧
    (cfg.usecache = false → cachePhase cfg w fs text up = CacheOut.cont none [] up) ∧
    (cfg.usecache = true →
      ¬ (cfg.cachedir.length + (md5Hex text).length + 6 ≤ MAXLEN) →
      cachePhase cfg w fs text up = CacheOut.cont none [] up) ∧
    (cfg.usecache = true →
      cfg.cachedir.length + (md5Hex text).length + 6 ≤ MAXLEN →
      fs (cacheName cfg text) = none →
      cachePhase cfg w fs text up = CacheOut.cont (some (cacheName cfg text)) [] up) ∧
    (∀ (cfg2 : Config) (w2 : World) (fs2 : Fs) (data2 : String),
      cfg2.usecache = true →
      ¬ (cfg2.cachedir.length + (md5Hex (execText data2)).length + 6 ≤ MAXLEN) →
      (execTr cfg2 w2 fs2 data2).any isCopy = false) ∧
    (cfg.usecache = true →
      cfg.cachedir.length + (md5Hex text).length + 6 ≤ MAXLEN →
      (fs (cacheName cfg text)).isSome = true →
      w.streamRes (cacheName cfg text) = 0 →
      cachePhase cfg w fs text up = CacheOut.ret (w.waitRes (cacheName cfg text))
        ((if up then [] else [Ev.answer]) ++
          [Ev.play (cacheName cfg text) (fs (cacheName cfg text)),
           Ev.waitstream (cacheName cfg text), Ev.stopstream]) true) ∧
    (cfg.usecache = true →
      cfg.cachedir.length + (md5Hex text).length + 6 ≤ MAXLEN →
      (fs (cacheName cfg text)).isSome = true →
      w.streamRes (cacheName cfg text) ≠ 0 →
      cachePhase cfg w fs text up = CacheOut.cont none
        ((if up then [] else [Ev.answer]) ++
          [Ev.play (cacheName cfg text) (fs (cacheName cfg text)), Ev.err]) true) := by
  refine ⟨?_, ?_, ?_, ?_, ?_, ?_, ?_⟩
  · cases hu : cfg.usecache <;>
      by_cases h2 : cfg.cachedir.length + (md5Hex text).length + 6 ≤ MAXLEN <;>
      cases hhit : fs (cacheName cfg text) <;>
      simp [cacheHit, hu, h2, hhit]
  · exact fun h => cachePhase_nouse cfg w fs text up h
  · exact fun h1 h2 => cachePhase_toolong cfg w fs text up h1 h2
  · exact fun h1 h2 h3 => cachePhase_miss cfg w fs text up h1 h2 h3
  · intro cfg2 w2 fs2 data2 hu2 hf2
    by_contra hx
    have hx2 : (execTr cfg2 w2 fs2 data2).any isCopy = true := by
      cases hcase : (execTr cfg2 w2 fs2 data2).any isCopy
      · exact absurd hcase hx
      · rfl
    exact hf2 (copy_only_on_miss cfg2 w2 fs2 data2 hx2).2.1
  · exact fun h1 h2 h3 h4 => cachePhase_hit_ok cfg w fs text up h1 h2 h3 h4
  · exact fun h1 h2 h3 h4 => cachePhase_hit_fail cfg w fs text up h1 h2 h3 h4

/-- Witness for C8: an over-long cache directory skips the cache silently and
the whole request writes no cache entry. -/
theorem C8_cache_lookup_cases_witness :
    cachePhase cfgLong wOK fsEmpty (execText "x") true = CacheOut.cont none [] true ∧
    (execTr cfgLong wOK fsEmpty "x").any isCopy = false := by
  have h := C8_cache_lookup_cases cfgLong wOK fsEmpty (execText "x") true
  exact ⟨h.2.2.1 rfl cfgLong_toolong,
    h.2.2.2.2.1 cfgLong wOK fsEmpty "x" rfl cfgLong_toolong⟩

end EspeakApp
